import Mathlib

/-!
Verification of the Closet Monkey RFID reader
(`src/hardware/rfid_reader.py`), a polling loop that reads a set of RFID
tag identifiers, classifies the change against the previously stored set
as a departure or arrival event, and POSTs the event to a backend API.

The Python code is shallowly embedded: tag sets (Python `set` of strings)
become `Finset String`; the per-cycle effects (reading tags, the HTTP
outcome, possible exceptions, the wall-clock timestamp) are supplied as an
explicit environment `CycleEnv`; the observable behaviour of one loop
iteration is a pure function `cycle`, and the whole loop folds `cycle`
over a list of environments (`runLoop`).
-/

namespace ClosetMonkey

/-- A tag identifier string, as produced by the RFID hardware. -/
abbrev Tag := String

/-- A log line, mirroring the `logging.info` / `logging.error` calls. -/
inductive LogEntry
  | info (msg : String)
  | error (msg : String)
deriving DecidableEq, Repr

/-- True when some entry of the log was written at error level. -/
def logsHaveError (logs : List LogEntry) : Bool :=
  logs.any fun e =>
    match e with
    | .error _ => true
    | .info _ => false

/-- The observable outcome of the blocking `requests.post` call: either a
response with some HTTP status code, or a transport-level failure
(connection refused, timeout, ...). -/
inductive HttpOutcome
  | response (status : Nat)
  | transportError
deriving DecidableEq, Repr

/-- The `requests.exceptions.RequestException` hierarchy: `HTTPError`
(raised by `raise_for_status`) and connection/transport errors. Both are
subclasses of `RequestException`, hence both are caught by the
`except requests.exceptions.RequestException` clause in `send_to_api`. -/
inductive RequestException
  | httpError (status : Nat)
  | connectionError
deriving DecidableEq, Repr

/-- `requests.post(...)`: returns the response status, or raises a
transport-level `RequestException`. -/
def requests_post (outcome : HttpOutcome) : Except RequestException Nat :=
  match outcome with
  | .response status => .ok status
  | .transportError => .error .connectionError

/-- `Response.raise_for_status()` from the `requests` library: raises
`HTTPError` exactly when the status code is in 400..599 (client or server
error); any other status, 2xx or not, passes silently. -/
def raise_for_status (status : Nat) : Except RequestException Unit :=
  if 400 ≤ status ∧ status < 600 then .error (.httpError status)
  else .ok ()

/-- The JSON body built in `send_to_api` (source lines 57-62): exactly the
four fields `tags`, `event_type`, `timestamp`, `location`. The `tags`
field is `list(tags)` in Python; since iteration order over a Python set
is unspecified, it is modelled as the multiset of the elements. -/
structure EventBody where
  tags : Multiset Tag
  event_type : String
  timestamp : String
  location : String
deriving DecidableEq

/-- The single HTTP request issued by `send_to_api`. -/
structure HttpRequest where
  method : String
  url : String
  body : EventBody
deriving DecidableEq

/-- `RFIDReader.send_to_api(tags, event_type)` (source lines 52-70).
The wall-clock string `datetime.now().isoformat()` is supplied as the
parameter `timestamp`, and the outcome of the network call as `outcome`.
Returns the request it attempted together with the log lines it wrote;
every `RequestException` (HTTP error status or transport failure) is
caught inside, so the function always returns normally. -/
def send_to_api (api_url : String) (tags : Finset Tag)
    (event_type timestamp : String) (outcome : HttpOutcome) :
    HttpRequest × List LogEntry :=
  let data : EventBody :=
    { tags := tags.val
      event_type := event_type
      timestamp := timestamp
      location := "main_door" }
  let req : HttpRequest :=
    { method := "POST", url := api_url ++ "/rfid/event", body := data }
  let result : Except RequestException Nat :=
    match requests_post outcome with
    | .error e => .error e
    | .ok status =>
      match raise_for_status status with
      | .error e => .error e
      | .ok _ => .ok status
  match result with
  | .ok _ =>
    (req, [LogEntry.info ("Sent " ++ event_type ++ " event with "
        ++ toString tags.card ++ " tags")])
  | .error _ =>
    (req, [LogEntry.error "Failed to send API request"])

/-- `RFIDReader.detect_departure_arrival(current_tags)` (source lines
37-50), with the instance state `self.last_tags` passed explicitly.
Python truthiness on a set means non-emptiness, so `not self.last_tags and
current_tags` is `last_tags = ∅ ∧ current_tags ≠ ∅`, and so on. -/
def detect_departure_arrival (last_tags current_tags : Finset Tag) :
    Option String :=
  if last_tags = ∅ ∧ current_tags ≠ ∅ then
    some "departure"
  else if last_tags ≠ ∅ ∧ current_tags = ∅ then
    some "arrival"
  else if current_tags ≠ last_tags then
    some (if current_tags.card > last_tags.card then "departure" else "arrival")
  else
    none

/-- The four-rule classifier exactly as the specification words it
(spec section 4.2), to be compared with `detect_departure_arrival`. -/
def classify_spec (lastTags currentTags : Finset Tag) : Option String :=
  if lastTags = ∅ ∧ currentTags ≠ ∅ then
    some "departure"
  else if lastTags ≠ ∅ ∧ currentTags = ∅ then
    some "arrival"
  else if lastTags ≠ currentTags then
    if currentTags.card > lastTags.card then some "departure"
    else some "arrival"
  else
    none

/-- `RFIDReader.read_tags()` (source lines 28-35): the hardware interface
is an unimplemented placeholder that unconditionally returns the empty
list. -/
def read_tags : List Tag := []

/-- `self.last_tags = set()` in `RFIDReader.__init__` (source line 26). -/
def initState : Finset Tag := ∅

/-- The default `api_url` constructor argument (source line 24). -/
def default_api_url : String := "http://localhost:3001/api"

/-- Result of `read_tags()` inside the `try` block: a normal return, an
unexpected exception (caught by `except Exception`), or a
`KeyboardInterrupt` (caught separately). -/
inductive ReadResult
  | ok (tags : List Tag)
  | exn
  | interrupt
deriving DecidableEq, Repr

/-- Result of the `time.sleep(1)` call at the end of the `try` block:
normal return, an unexpected exception, or a `KeyboardInterrupt`
delivered during the sleep. -/
inductive SleepResult
  | ok
  | exn
  | interrupt
deriving DecidableEq, Repr

/-- The external inputs of one iteration of the `while True` loop:
what `read_tags` does, the HTTP outcome if `requests.post` is reached,
the timestamp string `datetime.now().isoformat()` would produce (an
ISO-8601 string), whether `send_to_api` raises an unexpected exception
that is not a `RequestException` (and hence escapes to the loop-level
handler), and what the trailing `time.sleep(1)` does. -/
structure CycleEnv where
  readResult : ReadResult
  http : HttpOutcome
  isoTimestamp : String
  dispatchExn : Bool
  sleep : SleepResult
deriving DecidableEq, Repr

/-- What the loop does after one iteration: proceed to the next iteration
after sleeping the given number of seconds, or leave the loop
(`break` on `KeyboardInterrupt`). -/
inductive Control
  | next (sleepSeconds : Nat)
  | stop
deriving DecidableEq, Repr

/-- The observable result of one loop iteration: the value of
`self.last_tags` afterwards, the control decision, the HTTP requests
attempted, and the log lines written. -/
structure CycleResult where
  state : Finset Tag
  control : Control
  requests : List HttpRequest
  logs : List LogEntry
deriving DecidableEq

/-- The log line of the `except KeyboardInterrupt` handler (line 90). -/
def stoppedLog : LogEntry := .info "RFID reader stopped by user"

/-- The log line of the `except Exception` handler (line 93); the
exception text appended in the source is omitted. -/
def cycleErrorLog : LogEntry := .error "Error in RFID reader"

/-- One iteration of the `while True` loop in `RFIDReader.run` (source
lines 78-94), over the current `self.last_tags` value and the cycle
environment. Mirrors the source control flow: `read_tags`, then
`set(...)`, then `detect_departure_arrival`; if an event type was
produced, `send_to_api` followed by `self.last_tags = current_tags.copy()`;
then `time.sleep(1)`. A `KeyboardInterrupt` breaks the loop after logging;
any other exception is logged and answered with `time.sleep(5)`. -/
def cycle (api_url : String) (last_tags : Finset Tag) (env : CycleEnv) :
    CycleResult :=
  match env.readResult with
  | .interrupt =>
    { state := last_tags, control := .stop, requests := [], logs := [stoppedLog] }
  | .exn =>
    { state := last_tags, control := .next 5, requests := [], logs := [cycleErrorLog] }
  | .ok tagList =>
    let current_tags : Finset Tag := tagList.toFinset
    match detect_departure_arrival last_tags current_tags with
    | some event_type =>
      if env.dispatchExn then
        { state := last_tags, control := .next 5, requests := [],
          logs := [cycleErrorLog] }
      else
        let sent := send_to_api api_url current_tags event_type
          env.isoTimestamp env.http
        match env.sleep with
        | .ok =>
          { state := current_tags, control := .next 1,
            requests := [sent.1], logs := sent.2 }
        | .exn =>
          { state := current_tags, control := .next 5,
            requests := [sent.1], logs := sent.2 ++ [cycleErrorLog] }
        | .interrupt =>
          { state := current_tags, control := .stop,
            requests := [sent.1], logs := sent.2 ++ [stoppedLog] }
    | none =>
      match env.sleep with
      | .ok =>
        { state := last_tags, control := .next 1, requests := [], logs := [] }
      | .exn =>
        { state := last_tags, control := .next 5, requests := [],
          logs := [cycleErrorLog] }
      | .interrupt =>
        { state := last_tags, control := .stop, requests := [],
          logs := [stoppedLog] }

/-- Accumulated observable result of running the loop over a finite
prefix of cycle environments. `stopped` records whether the loop was left
through the `KeyboardInterrupt` branch within that prefix. -/
structure RunResult where
  state : Finset Tag
  requests : List HttpRequest
  logs : List LogEntry
  stopped : Bool
deriving DecidableEq

/-- `RFIDReader.run` (source lines 72-94) driven by a finite list of
cycle environments: iterate `cycle`, stopping early when an iteration
breaks the loop. -/
def runLoop (api_url : String) (last_tags : Finset Tag) :
    List CycleEnv → RunResult
  | [] => { state := last_tags, requests := [], logs := [], stopped := false }
  | env :: envs =>
    let c := cycle api_url last_tags env
    match c.control with
    | .stop =>
      { state := c.state, requests := c.requests, logs := c.logs, stopped := true }
    | .next _ =>
      let rest := runLoop api_url c.state envs
      { state := rest.state
        requests := c.requests ++ rest.requests
        logs := c.logs ++ rest.logs
        stopped := rest.stopped }

/-! ## Helper lemmas -/

/-- `send_to_api` writes an error-level log line exactly when the network
call failed at transport level or returned a status in 400..599. -/
lemma send_to_api_logs_error_iff (api : String) (tags : Finset Tag)
    (et ts : String) (o : HttpOutcome) :
    (logsHaveError (send_to_api api tags et ts o).2 = true ↔
      o = .transportError ∨
        ∃ st, o = .response st ∧ 400 ≤ st ∧ st < 600) := by
  cases o with
  | transportError =>
    simp [send_to_api, requests_post, logsHaveError]
  | response st =>
    by_cases h : 400 ≤ st ∧ st < 600 <;>
      simp [send_to_api, requests_post, raise_for_status, h, logsHaveError]

/-- `send_to_api` always writes exactly one log line. -/
lemma send_to_api_logs_length (api : String) (tags : Finset Tag)
    (et ts : String) (o : HttpOutcome) :
    (send_to_api api tags et ts o).2.length = 1 := by
  cases o with
  | transportError =>
    simp [send_to_api, requests_post]
  | response st =>
    by_cases h : 400 ≤ st ∧ st < 600 <;>
      simp [send_to_api, requests_post, raise_for_status, h]

/-- The request component of `send_to_api` is one POST to
`{api_url}/rfid/event` with the four-field JSON body. -/
lemma send_to_api_request (api : String) (tags : Finset Tag)
    (et ts : String) (o : HttpOutcome) :
    (send_to_api api tags et ts o).1 =
      { method := "POST"
        url := api ++ "/rfid/event"
        body := { tags := tags.val
                  event_type := et
                  timestamp := ts
                  location := "main_door" } } := by
  cases o with
  | transportError =>
    simp [send_to_api, requests_post]
  | response st =>
    by_cases h : 400 ≤ st ∧ st < 600 <;>
      simp [send_to_api, requests_post, raise_for_status, h]

/-- The classifier only ever produces the two strings
`"departure"` and `"arrival"`. -/
lemma detect_departure_arrival_values (last cur : Finset Tag) (et : String)
    (h : detect_departure_arrival last cur = some et) :
    et = "departure" ∨ et = "arrival" := by
  unfold detect_departure_arrival at h
  split_ifs at h <;> simp_all

/-! ## Claims -/

/-- C1: the classifier `detect_departure_arrival` agrees with the four-rule
case analysis of the specification (`classify_spec`) on every pair of tag
sets: empty-to-nonempty is departure, nonempty-to-empty is arrival,
unequal sets compare cardinalities, equal sets produce no event. -/
theorem classifier_matches_spec (lastTags currentTags : Finset Tag) :
    detect_departure_arrival lastTags currentTags =
      classify_spec lastTags currentTags := by
  unfold detect_departure_arrival classify_spec
  split_ifs <;> simp_all [eq_comm]

/-- C8: identity law of the classifier: for every tag set A, including
the empty set, `detect_departure_arrival A A = none`. -/
theorem classify_identity (A : Finset Tag) :
    detect_departure_arrival A A = none := by
  unfold detect_departure_arrival
  split_ifs <;> simp_all

/-- C6 (counterexample to the claim as stated): status 304 is not a 2xx
response, yet `send_to_api` does not log an error for it: because
`raise_for_status` only raises for statuses 400..599, a 304 response is
treated as a success and logged at info level. -/
theorem dispatch_non2xx_counterexample :
    (¬ (200 ≤ 304 ∧ 304 < 300)) ∧
    logsHaveError (send_to_api default_api_url ∅ "arrival"
      "2026-01-01T00:00:00" (.response 304)).2 = false ∧
    (send_to_api default_api_url ∅ "arrival" "2026-01-01T00:00:00"
        (.response 304)).2 =
      [LogEntry.info "Sent arrival event with 0 tags"] := by
  exact ⟨by decide, by decide, by decide⟩

/-- C6 (amended): `send_to_api` treats a response status in 400..599 and
any transport error as a soft failure: exactly one log line is written,
it is error-level precisely in those cases (any other status, in
particular any 2xx, is logged as success), and the function returns
normally in every case, so the caller proceeds regardless. -/
theorem dispatch_soft_failure (api : String) (tags : Finset Tag)
    (et ts : String) (o : HttpOutcome) :
    (logsHaveError (send_to_api api tags et ts o).2 = true ↔
      o = .transportError ∨
        ∃ st, o = .response st ∧ 400 ≤ st ∧ st < 600) ∧
    (send_to_api api tags et ts o).2.length = 1 :=
  ⟨send_to_api_logs_error_iff api tags et ts o,
   send_to_api_logs_length api tags et ts o⟩

/-- C2: state update law: in any cycle in which an event is dispatched for
the current tag set C (`read_tags` returned normally, the classifier
produced an event, and `send_to_api` itself did not raise an unexpected
exception), `last_tags` afterwards equals C exactly regardless of the
HTTP outcome; the loop proceeds to the next iteration after the normal
1-second sleep, and an error is logged precisely when the dispatch failed
(transport error or status 400..599), without ever propagating. -/
theorem state_update_law (api : String) (s : Finset Tag) (env : CycleEnv)
    (l : List Tag) (et : String)
    (hread : env.readResult = .ok l)
    (hdx : env.dispatchExn = false)
    (hsl : env.sleep = .ok)
    (hev : detect_departure_arrival s l.toFinset = some et) :
    (cycle api s env).state = l.toFinset ∧
    (cycle api s env).control = .next 1 ∧
    (logsHaveError (cycle api s env).logs = true ↔
      env.http = .transportError ∨
        ∃ st, env.http = .response st ∧ 400 ≤ st ∧ st < 600) := by
  refine ⟨?_, ?_, ?_⟩ <;>
    simp [cycle, hread, hdx, hsl, hev, send_to_api_logs_error_iff]

/-- Concrete environment exercising the C2 state update law: the reader
sees tag A1 for the first time and the POST fails at transport level. -/
def envC2 : CycleEnv :=
  { readResult := .ok ["A1"]
    http := .transportError
    isoTimestamp := "2026-01-01T00:00:00"
    dispatchExn := false
    sleep := .ok }

/-- Witness for C2 at a concrete input: departure of tag A1 with a failed
POST still advances `last_tags` to the singleton set. -/
theorem state_update_law_witness :
    (cycle default_api_url ∅ envC2).state = (["A1"] : List Tag).toFinset ∧
    (cycle default_api_url ∅ envC2).control = .next 1 ∧
    (logsHaveError (cycle default_api_url ∅ envC2).logs = true ↔
      envC2.http = .transportError ∨
        ∃ st, envC2.http = .response st ∧ 400 ≤ st ∧ st < 600) :=
  state_update_law default_api_url ∅ envC2 ["A1"] "departure"
    rfl rfl rfl (by decide)

/-- C4: no-event law: in a cycle where `read_tags` returns normally and
the classifier returns `none`, `last_tags` is unchanged and no HTTP
request is attempted. -/
theorem no_event_law (api : String) (s : Finset Tag) (env : CycleEnv)
    (l : List Tag)
    (hread : env.readResult = .ok l)
    (hnone : detect_departure_arrival s l.toFinset = none) :
    (cycle api s env).state = s ∧ (cycle api s env).requests = [] := by
  cases hsl : env.sleep <;>
    simp [cycle, hread, hnone, hsl]

/-- Concrete environment for the no-event law: an empty read over an
empty stored set. -/
def envC4 : CycleEnv :=
  { readResult := .ok []
    http := .response 200
    isoTimestamp := "2026-01-01T00:00:00"
    dispatchExn := false
    sleep := .ok }

/-- Witness for C4 at a concrete input. -/
theorem no_event_law_witness :
    (cycle default_api_url ∅ envC4).state = ∅ ∧
    (cycle default_api_url ∅ envC4).requests = [] :=
  no_event_law default_api_url ∅ envC4 [] rfl (by decide)

/-- C5: loop-level error atomicity: when an unexpected exception is
raised during the cycle by `read_tags`, or by `send_to_api` for a reason
other than a `RequestException` (which it swallows itself), the loop-level
`except Exception` handler logs the error, `last_tags` is left unchanged
by the errored cycle, and the loop waits 5 seconds instead of the normal
1 second before the next attempt. -/
theorem cycle_error_recovery (api : String) (s : Finset Tag) (env : CycleEnv)
    (h : env.readResult = .exn ∨
      ∃ l, env.readResult = .ok l ∧ env.dispatchExn = true ∧
        (detect_departure_arrival s l.toFinset).isSome) :
    (cycle api s env).state = s ∧
    (cycle api s env).control = .next 5 ∧
    (cycle api s env).logs = [cycleErrorLog] := by
  rcases h with h | ⟨l, hread, hdx, hsome⟩
  · simp [cycle, h]
  · obtain ⟨et, het⟩ := Option.isSome_iff_exists.mp hsome
    simp [cycle, hread, hdx, het]

/-- Concrete environment for C5: `read_tags` raises an unexpected
exception. -/
def envC5 : CycleEnv :=
  { readResult := .exn
    http := .response 200
    isoTimestamp := "2026-01-01T00:00:00"
    dispatchExn := false
    sleep := .ok }

/-- Witness for C5 at a concrete input. -/
theorem cycle_error_recovery_witness :
    (cycle default_api_url {"A1"} envC5).state = {"A1"} ∧
    (cycle default_api_url {"A1"} envC5).control = .next 5 ∧
    (cycle default_api_url {"A1"} envC5).logs = [cycleErrorLog] :=
  cycle_error_recovery default_api_url {"A1"} envC5 (Or.inl rfl)

/-- C7: request shape: whenever a cycle dispatches an event, it attempts
exactly one HTTP POST to `{api_url}/rfid/event`, whose body has exactly
the fields `tags` (the elements of the current tag set), `event_type`
(which is always one of `"departure"` or `"arrival"`), `timestamp` (the
string `datetime.now().isoformat()` produced, an ISO-8601 timestamp), and
`location` (the fixed string `"main_door"`). -/
theorem dispatch_request_shape (api : String) (s : Finset Tag)
    (env : CycleEnv) (l : List Tag) (et : String)
    (hread : env.readResult = .ok l)
    (hdx : env.dispatchExn = false)
    (hev : detect_departure_arrival s l.toFinset = some et) :
    (cycle api s env).requests =
      [{ method := "POST"
         url := api ++ "/rfid/event"
         body := { tags := l.toFinset.val
                   event_type := et
                   timestamp := env.isoTimestamp
                   location := "main_door" } }] ∧
    (et = "departure" ∨ et = "arrival") := by
  refine ⟨?_, detect_departure_arrival_values s l.toFinset et hev⟩
  cases hsl : env.sleep <;>
    simp [cycle, hread, hdx, hsl, hev, send_to_api_request]

/-- Witness for C7 at a concrete input: the first appearance of tag A1 is
POSTed as a departure event with the expected body. -/
theorem dispatch_request_shape_witness :
    (cycle default_api_url ∅ envC2).requests =
      [{ method := "POST"
         url := default_api_url ++ "/rfid/event"
         body := { tags := (["A1"] : List Tag).toFinset.val
                   event_type := "departure"
                   timestamp := envC2.isoTimestamp
                   location := "main_door" } }] ∧
    ("departure" = "departure" ∨ "departure" = "arrival") :=
  dispatch_request_shape default_api_url ∅ envC2 ["A1"] "departure"
    rfl rfl (by decide)

/-- Deduplicating a list before collecting it into a finset changes
nothing. -/
lemma dedup_toFinset_eq (l : List Tag) : l.dedup.toFinset = l.toFinset := by
  ext x
  simp

/-- Every cycle either attempts no request and leaves the state unchanged,
or attempts exactly one request and sets the state to the tag set carried
by that request. -/
lemma cycle_requests_state (api : String) (s : Finset Tag) (env : CycleEnv) :
    ((cycle api s env).requests = [] ∧ (cycle api s env).state = s) ∨
    (∃ req, (cycle api s env).requests = [req] ∧
      (cycle api s env).state = req.body.tags.toFinset) := by
  obtain ⟨r, http, ts, dx, sl⟩ := env
  cases r with
  | interrupt => left; simp [cycle]
  | exn => left; simp [cycle]
  | ok l =>
    cases hdet : detect_departure_arrival s l.toFinset with
    | none => cases sl <;> (left; simp [cycle, hdet])
    | some et =>
      cases dx with
      | true => left; simp [cycle, hdet]
      | false =>
        right
        cases sl <;>
          (refine ⟨(send_to_api api l.toFinset et ts http).1, ?_, ?_⟩ <;>
            simp [cycle, hdet, send_to_api_request, dedup_toFinset_eq])

/-- Generalisation of the C3 invariant to an arbitrary starting state:
the state after running the loop is the fold of the attempted requests
over the starting state, i.e. the tag set of the most recently attempted
request, or the starting state if none was attempted. -/
lemma runLoop_state_foldl (api : String) (envs : List CycleEnv) :
    ∀ s : Finset Tag,
      (runLoop api s envs).state =
        (runLoop api s envs).requests.foldl
          (fun _ req => req.body.tags.toFinset) s := by
  induction envs with
  | nil => intro s; simp [runLoop]
  | cons e es ih =>
    intro s
    rcases cycle_requests_state api s e with ⟨hreq, hst⟩ | ⟨req, hreq, hst⟩ <;>
      cases hctl : (cycle api s e).control <;>
        simp [runLoop, hctl, hreq, hst, ih]

/-- C3: `last_tags` is initialized to the empty set, and in every
reachable state of the loop it equals the tag set carried by the most
recently dispatched event (the fold of the dispatched requests), or the
initial empty set when no event has been dispatched; it is never an
intermediate unclassified reading. -/
theorem last_tags_dispatch_invariant (api : String) (envs : List CycleEnv) :
    initState = (∅ : Finset Tag) ∧
    (runLoop api initState envs).state =
      (runLoop api initState envs).requests.foldl
        (fun _ req => req.body.tags.toFinset) initState :=
  ⟨rfl, runLoop_state_foldl api envs initState⟩

/-- C9: termination: a cycle leaves the loop exactly when a
`KeyboardInterrupt` is delivered (during the read, or during the trailing
sleep of a cycle that reached it), in which case the clean shutdown
message is logged; every other cycle, whatever exceptions arose in it,
continues the loop after some sleep — no crash path exists. -/
theorem loop_stop_iff (api : String) (s : Finset Tag) (env : CycleEnv) :
    ((cycle api s env).control = .stop ↔
      (env.readResult = .interrupt ∨
        ∃ l, env.readResult = .ok l ∧ env.sleep = .interrupt ∧
          (env.dispatchExn = false ∨
            detect_departure_arrival s l.toFinset = none))) ∧
    ((cycle api s env).control = .stop →
      stoppedLog ∈ (cycle api s env).logs) ∧
    ((cycle api s env).control = .stop ∨
      ∃ n, (cycle api s env).control = .next n) := by
  obtain ⟨r, http, ts, dx, sl⟩ := env
  cases r with
  | interrupt => simp [cycle]
  | exn => simp [cycle]
  | ok l =>
    cases hdet : detect_departure_arrival s l.toFinset with
    | none => cases sl <;> simp [cycle, hdet]
    | some et => cases dx <;> cases sl <;> simp [cycle, hdet]

/-- Comparing two empty tag sets produces no event. -/
lemma detect_empty_empty :
    detect_departure_arrival (∅ : Finset Tag) ∅ = none := by
  simp [detect_departure_arrival]

/-- In the shipped program `read_tags` returns the empty list, so the
classifier compares two empty sets and produces no event. -/
lemma detect_read_tags_none :
    detect_departure_arrival ∅ read_tags.toFinset = none := by
  simp [read_tags, detect_empty_empty]

/-- C10: in the program as shipped, `read_tags` unconditionally returns
an empty result, so every cycle classifies to `none`, `last_tags` remains
the empty set in every reachable state, and no HTTP request is ever
attempted. -/
theorem shipped_reader_silent (api : String) (envs : List CycleEnv)
    (h : ∀ e ∈ envs, e.readResult = .ok read_tags) :
    (runLoop api initState envs).state = ∅ ∧
    (runLoop api initState envs).requests = [] ∧
    detect_departure_arrival ∅ read_tags.toFinset = none := by
  have key : ∀ envs : List CycleEnv,
      (∀ e ∈ envs, e.readResult = .ok read_tags) →
      (runLoop api (∅ : Finset Tag) envs).state = ∅ ∧
      (runLoop api (∅ : Finset Tag) envs).requests = [] := by
    intro envs
    induction envs with
    | nil => intro _; simp [runLoop]
    | cons e es ih =>
      intro hall
      have he : e.readResult = .ok read_tags := hall e (by simp)
      have hes := ih (fun x hx => hall x (by simp [hx]))
      cases hsl : e.sleep <;>
        simp [runLoop, cycle, he, hsl, read_tags,
          detect_empty_empty, hes]
  have hk := key envs h
  exact ⟨hk.1, hk.2, detect_read_tags_none⟩

/-- Concrete environment for C10: a cycle of the shipped program. -/
def envC10 : CycleEnv :=
  { readResult := .ok read_tags
    http := .response 200
    isoTimestamp := "2026-01-01T00:00:00"
    dispatchExn := false
    sleep := .ok }

/-- Witness for C10 at a concrete input: one shipped cycle leaves the
state empty and attempts no request. -/
theorem shipped_reader_silent_witness :
    (runLoop default_api_url initState [envC10]).state = ∅ ∧
    (runLoop default_api_url initState [envC10]).requests = [] ∧
    detect_departure_arrival ∅ read_tags.toFinset = none :=
  shipped_reader_silent default_api_url [envC10]
    (by intro e he; simp at he; subst he; rfl)

end ClosetMonkey
